import Mathlib

/-!
Verification development for the secure code interpreter cookbook
(object oriented agentic approach). The notebook wires two agents —
a FileAccessAgent holding one file access tool and a PythonExecAgent
holding one isolated code execution tool — around a shared agent/tool
abstraction (ToolInterface, ToolManager, ChatMessages, BaseAgent) and
drives them from a read-eval loop. The orchestration loop and the
recorded tool responses are taken from the notebook itself; the core
classes live outside the provided sources and are modelled from the
specification, as marked on each definition.
-/

set_option maxRecDepth 400000

-- ## Character list utilities (executable, kernel friendly)

/-- Boolean test that the first character list is a prefix of the second. -/
def isPrefixCh : List Char → List Char → Bool
  | [], _ => true
  | _ :: _, [] => false
  | a :: as, b :: bs => a == b && isPrefixCh as bs

/-- Boolean test that the pattern occurs as a contiguous substring. -/
def containsCh (pat : List Char) : List Char → Bool
  | [] => isPrefixCh pat []
  | c :: rest => isPrefixCh pat (c :: rest) || containsCh pat rest

/-- Split a character list on a separator character. -/
def splitOnChar (sep : Char) : List Char → List (List Char)
  | [] => [[]]
  | c :: cs =>
    let r := splitOnChar sep cs
    if c == sep then [] :: r
    else
      match r with
      | [] => [[c]]
      | h :: t => (c :: h) :: t

def newlineChar : Char := Char.ofNat 10

def slashChar : Char := Char.ofNat 47

def dotChar : Char := Char.ofNat 46

-- ## Recorded behaviour of the file access tool (transcribed from the notebook)

/-- Transcribed verbatim from the recorded run stored in the notebook: the
text response of the safe_file_access tool for the recorded arguments
filename = ./resources/data/traffic_accidents.csv, given line by line.
The first line reports the copy into the sandbox, the second line
introduces the preview, the third line is the rendered column header and
the remaining fifteen lines are the first fifteen data rows. -/
def safe_file_access_recorded_lines : List String :=
  ["Copied ./resources/data/traffic_accidents.csv into sandbox:/home/sandboxuser/.",
   "The file content for the first 15 rows is:",
   "    accidents  traffic_fine_amount  traffic_density  traffic_lights  pavement_quality  urban_area  average_speed  rain_intensity  vehicle_count  time_of_day",
   "0          20               4.3709           2.3049         753.000            0.7700           1        321.592          1.1944       290.8570     160.4320",
   "1          11               9.5564           3.2757           5.452            4.0540           1        478.623          6.2960       931.8120       8.9108",
   "2          19               7.5879           2.0989           6.697          345.0000           0        364.476          2.8584       830.0860       5.5727",
   "3          23               6.3879           4.9188           9.412            4.7290           0         20.920          2.1065       813.1590     131.4520",
   "4          23               2.4042           1.9610           7.393            1.7111           1         37.378          1.7028         1.4663       6.9610",
   "5          31               2.4040           6.7137           5.411            5.9050           1        404.621          1.8936       689.0410       8.1801",
   "6          29               1.5228           5.2316           9.326            2.3785           1         16.292          2.5213       237.9710      12.6622",
   "7          18               8.7956           8.9864           4.784            1.9984           0        352.566          1.9072       968.0670       8.0602",
   "8          15               6.4100           1.6439           5.612            3.6090           1        217.198          3.4380       535.4440       8.2904",
   "9          22               7.3727           8.0411           5.961            4.7650           1        409.261          2.0919       569.0560     203.5910",
   "10         28               1.1853           7.9196           0.410            3.7678           1        147.689          1.6946       362.9180     224.1580",
   "11         17               9.7292           1.2718           8.385            8.9720           0         46.888          2.8990       541.3630     198.5740",
   "12         14               8.4920           3.9856           1.852            4.6776           0        287.393          2.2012        75.2240       2.3728",
   "13         21               2.9111           1.7015           5.548            1.9607           1        176.652          1.0320       566.3010       6.9538",
   "14         22               2.6364           2.5472           7.222            2.3709           0        209.686          4.0620        64.4850     170.7110"]

/-- The recorded response of the safe_file_access tool as one string. -/
def safe_file_access_recorded_response : String :=
  String.intercalate "\n" safe_file_access_recorded_lines

/-- The ten column names of the traffic accidents CSV, as listed in the
notebook prompt and in the recorded preview header. -/
def columnNames : List String :=
  ["accidents", "traffic_fine_amount", "traffic_density", "traffic_lights",
   "pavement_quality", "urban_area", "average_speed", "rain_intensity",
   "vehicle_count", "time_of_day"]

-- ## Data model of the agent/tool abstraction

/-- Modelled from the spec: message roles of the conversation log. -/
inductive Role where
  | system
  | user
  | assistant
  | tool
deriving DecidableEq

/-- Modelled from the spec: one conversation turn. -/
structure Message where
  role : Role
  content : String
deriving DecidableEq

/-- Modelled from the spec: name, description and parameter schema under
which a tool is advertised to the model. -/
structure ToolDefinition where
  name : String
  description : String
  paramSchema : String
deriving DecidableEq

/-- Modelled from the spec: the error taxonomy of section 7. -/
inductive ToolError where
  | invalidArgument
  | unknownTool
  | accessDenied
  | executionFailed
  | timeoutExpired
deriving DecidableEq

/-- Modelled from the spec: a tool is a described capability with a run
operation returning either a text result or a tool error. The ToolInterface
and the concrete tool classes are outside the provided sources. -/
structure Tool where
  defn : ToolDefinition
  run : String → Except ToolError String

/-- Modelled from the spec: describe is pure and returns the static schema. -/
def describe (t : Tool) : ToolDefinition := t.defn

/-- Modelled from the spec: the registry mapping tool name to tool instance. -/
abbrev ToolManager := List Tool

/-- Modelled from the spec: register adds or overwrites the entry with the
same name; the last registration wins on lookup. -/
def register (m : ToolManager) (t : Tool) : ToolManager :=
  t :: m.filter (fun u => u.defn.name != t.defn.name)

/-- Modelled from the spec: look up a tool by name. -/
def findTool (m : ToolManager) (name : String) : Option Tool :=
  m.find? (fun t => t.defn.name == name)

/-- Modelled from the spec: the tool definitions advertised to the model. -/
def toolDefs (m : ToolManager) : List ToolDefinition :=
  m.map describe

/-- Modelled from the spec: dispatch looks up the tool, fails with
UnknownToolError if absent, and otherwise delegates to run, propagating
the failures of the tool unchanged. -/
def dispatch (m : ToolManager) (name args : String) : Except ToolError String :=
  match findTool m name with
  | none => Except.error ToolError.unknownTool
  | some t => t.run args

-- ## File access tool (path validation, transfer, preview)

/-- Host filesystem model: an association list from path to file content. -/
abbrev HostFS := List (String × String)

/-- Isolate filesystem model: an association list from path to file content. -/
abbrev IsoFS := List (String × String)

/-- Look up a path in a filesystem model. -/
def lookupFS (fs : List (String × String)) (p : String) : Option String :=
  Option.map (fun e => e.snd) (fs.find? (fun e => e.fst == p))

/-- Split a path into its segments between slashes. -/
def pathSegs (path : String) : List (List Char) :=
  splitOnChar slashChar path.data

/-- Normalise path segments: drop empty segments and single dots, resolve
a double dot against the preceding segment, and fail with none when a
double dot escapes above the starting directory. -/
def normSegsAux : List (List Char) → List (List Char) → Option (List (List Char))
  | acc, [] => some acc.reverse
  | acc, seg :: rest =>
    if seg == [] || seg == [dotChar] then normSegsAux acc rest
    else if seg == [dotChar, dotChar] then
      match acc with
      | [] => none
      | _ :: acc2 => normSegsAux acc2 rest
    else normSegsAux (seg :: acc) rest

/-- Boolean segment-wise prefix test. -/
def isPrefixSegs : List (List Char) → List (List Char) → Bool
  | [], _ => true
  | _ :: _, [] => false
  | a :: as, b :: bs => a == b && isPrefixSegs as bs

/-- The allowed host root used by the notebook: the directory
./resources/data as shown in the recorded tool arguments. -/
def allowedRootSegs : List (List Char) :=
  match normSegsAux [] (pathSegs "./resources/data") with
  | some segs => segs
  | none => []

/-- Modelled from the spec: a path resolves within the allowed root when
its normalised segments exist (no escape above the start) and start with
the segments of the root. -/
def resolvesWithin (root : List (List Char)) (path : String) : Bool :=
  match normSegsAux [] (pathSegs path) with
  | none => false
  | some segs => isPrefixSegs root segs

/-- Last segment of a path, as the sandbox file name. -/
def baseNameCh (path : String) : List Char :=
  (pathSegs path).getLastD []

/-- Modelled from the spec: the fixed destination of the transfer inside
the isolate, distinct from the host path. -/
def sandboxDest (filename : String) : String :=
  "/home/sandboxuser/" ++ String.mk (baseNameCh filename)

/-- Modelled from the spec: the preview of the tabular content, the header
line plus the first 15 data rows of the file. -/
def previewText (content : String) : String :=
  String.intercalate "\n" (((splitOnChar newlineChar content.data).take 16).map String.mk)

/-- Modelled from the spec: the run operation of the file access tool. It
validates that the path resolves within the allowed host root, failing with
AccessDeniedError and leaving the isolate filesystem untouched otherwise;
on success it transfers the bytes to the fixed sandbox destination and
returns the text summary with the preview. A missing file is reported as
text, not as an access violation. The concrete tool class is outside the
provided sources; the allowed root, the destination and the wording of the
summary follow the recorded run in the notebook. -/
def fileAccessRun (hostFS : HostFS) (isoFS : IsoFS) (filename : String) :
    Except ToolError String × IsoFS :=
  if resolvesWithin allowedRootSegs filename then
    match lookupFS hostFS filename with
    | none => (Except.ok ("Error: The file " ++ filename ++ " does not exist."), isoFS)
    | some content =>
        (Except.ok ("Copied " ++ filename ++ " into sandbox:" ++ sandboxDest filename ++ ".\n" ++
           "The file content for the first 15 rows is:\n" ++ previewText content),
         (sandboxDest filename, content) :: isoFS)
  else (Except.error ToolError.accessDenied, isoFS)

/-- The advertised definition of the file access tool; the name is the one
shown in the recorded dispatch log of the notebook. -/
def fileAccessDefn : ToolDefinition :=
  ⟨"safe_file_access",
   "Read a CSV file from the allowed host directory and copy it into the sandbox, returning a preview of the first 15 rows.",
   "filename: string"⟩

/-- The file access tool over a fixed host and isolate filesystem. -/
def fileAccessTool (hostFS : HostFS) (isoFS : IsoFS) : Tool :=
  ⟨fileAccessDefn, fun args => (fileAccessRun hostFS isoFS args).1⟩

-- ## Isolated execution tool

/-- Modelled from the spec: the outcome of one interpreter run inside the
isolate — captured output on success, nonzero exit with captured output,
or a timeout. -/
inductive ExecOutcome where
  | success (output : String)
  | execFailed (exitCode : Nat) (output : String)
  | timedOut
deriving DecidableEq

/-- An outcome is a failure when it is not a successful run. -/
def ExecOutcome.isFailure : ExecOutcome → Bool
  | .success _ => false
  | .execFailed _ _ => true
  | .timedOut => true

/-- Modelled from the spec: failures of the isolate run are converted to
text so the model can see and react to them; successes return the captured
output unchanged. -/
def renderOutcome : ExecOutcome → String
  | .success out => out
  | .execFailed code out =>
      "Error executing code (exit status " ++ toString code ++ "): " ++ out
  | .timedOut => "Error executing code: execution timed out"

/-- The isolate collaborator: one run of the interpreter over source text. -/
abbrev IsolateRunner := String → ExecOutcome

/-- Modelled from the spec: the run operation of the execution tool. The
source text is shipped into the isolate, the interpreter is invoked once,
and the captured output — or the textual rendering of the failure — is
returned as the tool result. -/
def execute_python_code (iso : IsolateRunner) (src : String) : String :=
  renderOutcome (iso src)

/-- The advertised definition of the execution tool; the name is the one
shown in the recorded dispatch log of the notebook. -/
def execDefn : ToolDefinition :=
  ⟨"execute_python_code",
   "Execute Python source text inside the isolated container and return the captured output.",
   "python_code: string"⟩

/-- The execution tool over a fixed isolate runner. Its run never produces
a tool error: failures are already rendered as text. -/
def execTool (iso : IsolateRunner) : Tool :=
  ⟨execDefn, fun src => Except.ok (execute_python_code iso src)⟩

-- ## BaseAgent: conversation log, context buffer, task loop

/-- Modelled from the spec: the model backend either answers with final
text, requests one tool call, or fails. -/
inductive BackendResponse where
  | finalAnswer (text : String)
  | toolCall (name : String) (args : String)
  | backendFailure

/-- The model backend collaborator: consumes the full ordered message
sequence and the advertised tool definitions. -/
abbrev Backend := List Message → List ToolDefinition → BackendResponse

/-- Modelled from the spec: errors a task can propagate to its caller. -/
inductive AgentError where
  | modelBackend
  | toolFailed (e : ToolError)
  | outOfFuel
deriving DecidableEq

/-- Result of the inner model/tool loop: the outcome, the message log at
the end of the loop, and the message sequences handed to the backend, in
order of invocation. -/
structure LoopResult where
  result : Except AgentError String
  messages : List Message
  backendInputs : List (List Message)

/-- Modelled from the spec: the state of a BaseAgent — the developer
prompt fixed at construction, the append-only ChatMessages log, the
context buffer, and the tool manager fixed at construction. -/
structure AgentState where
  developerPrompt : String
  messages : List Message
  contextBuffer : List String
  tools : ToolManager

/-- Modelled from the spec: the inner loop of task. The backend is invoked
with the full message history and the advertised tool definitions; a tool
call request is dispatched through the manager, its text result appended
as a tool turn, and the backend re-invoked; a final answer is appended as
the assistant turn; a backend failure propagates as ModelBackendError; a
fatal dispatch error (unknown tool, access denial) aborts the task. Fuel
bounds the loop, reflecting that the reference behaviour has no internal
bound of its own. -/
def taskLoop (backend : Backend) (tools : ToolManager) : Nat → List Message → LoopResult
  | 0, msgs => ⟨Except.error AgentError.outOfFuel, msgs, []⟩
  | Nat.succ fuel, msgs =>
    match backend msgs (toolDefs tools) with
    | BackendResponse.finalAnswer t =>
        ⟨Except.ok t, msgs ++ [⟨Role.assistant, t⟩], [msgs]⟩
    | BackendResponse.backendFailure =>
        ⟨Except.error AgentError.modelBackend, msgs, [msgs]⟩
    | BackendResponse.toolCall name args =>
        match dispatch tools name args with
        | Except.error e => ⟨Except.error (AgentError.toolFailed e), msgs, [msgs]⟩
        | Except.ok txt =>
            let r := taskLoop backend tools fuel (msgs ++ [⟨Role.tool, txt⟩])
            ⟨r.result, r.messages, msgs :: r.backendInputs⟩

/-- Modelled from the spec: the user turn of a task merges the context
buffer, the developer prompt and the user input. -/
def mergedUserContent (s : AgentState) (input : String) : String :=
  String.intercalate "\n" (s.contextBuffer ++ [s.developerPrompt, input])

/-- Result of one task call: the outcome, the agent state afterwards, and
the message sequences handed to the backend during the call. -/
structure TaskResult where
  result : Except AgentError String
  state : AgentState
  backendInputs : List (List Message)

/-- Modelled from the spec: task appends the merged user turn to the log,
runs the model/tool loop to a final answer, and returns with the context
buffer consumed. The tool manager is never changed. -/
def task (backend : Backend) (fuel : Nat) (s : AgentState) (input : String) : TaskResult :=
  let userMsg : Message := ⟨Role.user, mergedUserContent s input⟩
  let r := taskLoop backend s.tools fuel (s.messages ++ [userMsg])
  ⟨r.result, { s with messages := r.messages, contextBuffer := [] }, r.backendInputs⟩

/-- Modelled from the spec: add_context appends to the context buffer and
touches nothing else; the ChatMessages log is not mutated until the next
task call. -/
def addContext (s : AgentState) (text : String) : AgentState :=
  { s with contextBuffer := s.contextBuffer ++ [text] }

-- ## The two concrete agents and their reachable states

/-- Modelled from the spec: the FileAccessAgent is constructed with
exactly the file access tool; it never holds the execution tool. -/
def fileAccessAgentInit (hostFS : HostFS) (isoFS : IsoFS) : AgentState :=
  ⟨"You are a file access agent. Read the requested file and copy it into the sandbox, then describe its content.",
   [], [], [fileAccessTool hostFS isoFS]⟩

/-- Modelled from the spec: the PythonExecAgent is constructed with
exactly the isolated execution tool; it never holds the file access tool. -/
def pythonExecAgentInit (iso : IsolateRunner) : AgentState :=
  ⟨"You are a data analysis agent. Generate Python code for the question of the user and run it in the sandbox.",
   [], [], [execTool iso]⟩

/-- Reachable agent states: the public surface of an agent is add_context
and task, so every reachable state arises from the constructed state by a
sequence of those two operations. -/
inductive Reachable (init : AgentState) : AgentState → Prop where
  | refl : Reachable init init
  | step_context (s : AgentState) (t : String) :
      Reachable init s → Reachable init (addContext s t)
  | step_task (s : AgentState) (backend : Backend) (fuel : Nat) (input : String) :
      Reachable init s → Reachable init (task backend fuel s input).state

-- ## Orchestration loop (from the notebook)

/-- Observable actions of one pass of the orchestration loop in the
notebook: the prompt printed each round, the exit message and break, the
echo of the question, the progress prints, the single task call on the
data analysis agent, and the printed output. A constructor for a task call
on the file ingestion agent exists only so that its absence from every
trace can be stated. -/
inductive LoopAction where
  | promptShown
  | exited
  | questionEchoed (q : String)
  | generatingShown
  | dataAnalysisTask (q : String)
  | outputHeaderShown
  | outputPrinted (s : String)
  | fileIngestionTask (q : String)
deriving DecidableEq

/-- Recogniser for a data analysis task call action. -/
def isTaskCall : LoopAction → Bool
  | LoopAction.dataAnalysisTask _ => true
  | _ => false

/-- The actions of one non-exit iteration of the loop, in program order:
prompt, echo of the question, progress print, the task call, the output
header, the printed task result. -/
def iterationActions (taskFn : String → String) (q : String) : List LoopAction :=
  [LoopAction.promptShown, LoopAction.questionEchoed q, LoopAction.generatingShown,
   LoopAction.dataAnalysisTask q, LoopAction.outputHeaderShown,
   LoopAction.outputPrinted (taskFn q)]

/-- The orchestration loop of the notebook over a finite input stream,
with the task call of the data analysis agent abstracted as a function
from question to printed output. Each round prints the prompt and reads
one input; the iteration breaks out of the loop exactly when the input is
the string exit, checked before any agent call; otherwise it echoes the
question, calls the data analysis agent once, and prints the result. The
file ingestion agent is never called inside the loop. -/
def orchestrationLoop (taskFn : String → String) : List String → List LoopAction
  | [] => []
  | q :: rest =>
    if q == "exit" then [LoopAction.promptShown, LoopAction.exited]
    else iterationActions taskFn q ++ orchestrationLoop taskFn rest

-- ## Concrete fixtures used by the witness theorems

/-- An isolate runner on which every run fails with a nonzero exit. -/
def isoBoom : IsolateRunner := fun _ => ExecOutcome.execFailed 1 "boom"

/-- A backend that always answers immediately. -/
def backendDone : Backend := fun _ _ => BackendResponse.finalAnswer "done"

/-- A backend that always requests one execution tool call. -/
def backendCallExec : Backend := fun _ _ => BackendResponse.toolCall "execute_python_code" "x"

/-- A fresh agent state with no tools. -/
def emptyAgent : AgentState := ⟨"p", [], [], []⟩

-- ## Helper lemmas

/-- Neither add_context nor task changes the tool manager of an agent. -/
theorem reachable_tools_eq (init s : AgentState) (h : Reachable init s) :
    s.tools = init.tools := by
  induction h with
  | refl => rfl
  | step_context s t _ ih => simpa [addContext] using ih
  | step_task s backend fuel input _ ih => simpa [task] using ih

/-- The message log only grows across the inner model/tool loop. -/
theorem taskLoop_messages_mono (backend : Backend) (tools : ToolManager) :
    ∀ (fuel : Nat) (msgs : List Message), msgs <+: (taskLoop backend tools fuel msgs).messages := by
  intro fuel
  induction fuel with
  | zero => intro msgs; simp [taskLoop]
  | succ fuel ih =>
    intro msgs
    cases hb : backend msgs (toolDefs tools) with
    | finalAnswer t => simp [taskLoop, hb]
    | backendFailure => simp [taskLoop, hb]
    | toolCall name args =>
      cases hd : dispatch tools name args with
      | error e => simp [taskLoop, hb, hd]
      | ok txt =>
        simp only [taskLoop, hb, hd]
        exact (List.prefix_append msgs [⟨Role.tool, txt⟩]).trans (ih (msgs ++ [⟨Role.tool, txt⟩]))

/-- Every message sequence handed to the backend during the inner loop
extends the log the loop started from. -/
theorem taskLoop_inputs_extend (backend : Backend) (tools : ToolManager) :
    ∀ (fuel : Nat) (msgs c : List Message),
      c ∈ (taskLoop backend tools fuel msgs).backendInputs → msgs <+: c := by
  intro fuel
  induction fuel with
  | zero => intro msgs c hc; simp [taskLoop] at hc
  | succ fuel ih =>
    intro msgs c hc
    cases hb : backend msgs (toolDefs tools) with
    | finalAnswer t =>
      simp [taskLoop, hb] at hc
      simp [hc]
    | backendFailure =>
      simp [taskLoop, hb] at hc
      simp [hc]
    | toolCall name args =>
      cases hd : dispatch tools name args with
      | error e =>
        simp [taskLoop, hb, hd] at hc
        simp [hc]
      | ok txt =>
        simp only [taskLoop, hb, hd, List.mem_cons] at hc
        rcases hc with rfl | hc
        · exact List.prefix_rfl
        · exact (List.prefix_append msgs [⟨Role.tool, txt⟩]).trans
            (ih (msgs ++ [⟨Role.tool, txt⟩]) c hc)

/-- One task call only appends to the message log, and appends at least
the merged user turn. -/
theorem task_messages_grow (backend : Backend) (fuel : Nat) (s : AgentState) (input : String) :
    s.messages <+: (task backend fuel s input).state.messages
    ∧ s.messages.length < (task backend fuel s input).state.messages.length := by
  have hugrow :
      s.messages ++ [⟨Role.user, mergedUserContent s input⟩] <+:
        (task backend fuel s input).state.messages := by
    simpa [task] using
      taskLoop_messages_mono backend s.tools fuel
        (s.messages ++ [⟨Role.user, mergedUserContent s input⟩])
  constructor
  · exact (List.prefix_append s.messages [⟨Role.user, mergedUserContent s input⟩]).trans hugrow
  · have hle := hugrow.length_le
    simp only [List.length_append, List.length_cons, List.length_nil] at hle
    omega

/-- Every message sequence handed to the backend during one task call
extends the log the agent entered the call with. -/
theorem task_inputs_extend (backend : Backend) (fuel : Nat) (s : AgentState) (input : String)
    (c : List Message) (hc : c ∈ (task backend fuel s input).backendInputs) :
    s.messages <+: c := by
  have h := taskLoop_inputs_extend backend s.tools fuel
    (s.messages ++ [⟨Role.user, mergedUserContent s input⟩]) c (by simpa [task] using hc)
  exact (List.prefix_append s.messages [⟨Role.user, mergedUserContent s input⟩]).trans h

/-- The orchestration loop never produces a task call on the file
ingestion agent, on any input stream. -/
theorem orchestrationLoop_no_file_task (taskFn : String → String) :
    ∀ (inputs : List String) (p : String),
      LoopAction.fileIngestionTask p ∉ orchestrationLoop taskFn inputs := by
  intro inputs
  induction inputs with
  | nil => intro p h; simp [orchestrationLoop] at h
  | cons q rest ih =>
    intro p h
    by_cases hq : (q == "exit") = true
    · rw [orchestrationLoop, if_pos hq] at h
      simp at h
    · rw [orchestrationLoop, if_neg hq] at h
      rw [List.mem_append] at h
      rcases h with h | h
      · simp [iterationActions] at h
      · exact ih p h

/-- The first message sequence handed to the backend inside the loop is
exactly the log the loop started from. -/
theorem taskLoop_first_input (backend : Backend) (tools : ToolManager)
    (fuel : Nat) (msgs : List Message) :
    (taskLoop backend tools (fuel + 1) msgs).backendInputs.head? = some msgs := by
  cases hb : backend msgs (toolDefs tools) with
  | finalAnswer a => simp [taskLoop, hb]
  | backendFailure => simp [taskLoop, hb]
  | toolCall name args =>
    cases hd : dispatch tools name args with
    | error e => simp [taskLoop, hb, hd]
    | ok txt => simp [taskLoop, hb, hd]

-- ## Claim theorems

/-- Claim C1, counterexample: the recorded response of the file access
tool for the traffic accidents CSV does not contain the literal
comma-separated column header claimed by the spec scenario; in fact the
recorded preview contains no comma at all, because the tabular preview is
rendered with whitespace-aligned columns. -/
theorem c1_no_comma_separated_header :
    containsCh (",".data) safe_file_access_recorded_response.data = false
    ∧ containsCh ("accidents,traffic_fine_amount,traffic_density".data)
        safe_file_access_recorded_response.data = false := by
  decide

/-- Claim C1, amended: the recorded response of the file access tool for
the traffic accidents CSV contains a preview whose header line lists all
ten column names (whitespace-separated, in the rendering of the tabular
content) and which holds exactly the first 15 data rows, indexed 0 to 14,
and no other data rows: the response is exactly the copy line, the
preview introduction line, the header line and the fifteen row lines. -/
theorem c1_preview_header_and_first_15_rows :
    safe_file_access_recorded_response =
      String.intercalate "\n" safe_file_access_recorded_lines
    ∧ safe_file_access_recorded_lines.length = 18
    ∧ columnNames.length = 10
    ∧ columnNames.all
        (fun n => containsCh n.data ((safe_file_access_recorded_lines.getD 2 "").data)) = true
    ∧ (List.range 15).all
        (fun i => isPrefixCh (toString i).data
          ((safe_file_access_recorded_lines.getD (3 + i) "").data)) = true := by
  refine ⟨rfl, ?_⟩
  decide

/-- Claim C2: separation of privilege holds structurally. The tool set of
each agent is fixed at construction and never extended: in every state
reachable through the public agent operations, the FileAccessAgent holds
exactly the file access tool and any dispatch of the execution tool name
fails with UnknownToolError, and the PythonExecAgent holds exactly the
execution tool and any dispatch of the file access tool name fails with
UnknownToolError. -/
theorem c2_separation_of_privilege :
    ∀ (hostFS : HostFS) (isoFS : IsoFS) (iso : IsolateRunner) (s1 s2 : AgentState),
      (Reachable (fileAccessAgentInit hostFS isoFS) s1 →
        s1.tools = [fileAccessTool hostFS isoFS]
        ∧ findTool s1.tools "execute_python_code" = none
        ∧ ∀ args, dispatch s1.tools "execute_python_code" args =
            Except.error ToolError.unknownTool)
      ∧ (Reachable (pythonExecAgentInit iso) s2 →
        s2.tools = [execTool iso]
        ∧ findTool s2.tools "safe_file_access" = none
        ∧ ∀ args, dispatch s2.tools "safe_file_access" args =
            Except.error ToolError.unknownTool) := by
  intro hostFS isoFS iso s1 s2
  constructor
  · intro h
    have htools : s1.tools = [fileAccessTool hostFS isoFS] := reachable_tools_eq _ _ h
    refine ⟨htools, ?_, ?_⟩
    · rw [htools]; rfl
    · intro args; rw [htools]; rfl
  · intro h
    have htools : s2.tools = [execTool iso] := reachable_tools_eq _ _ h
    refine ⟨htools, ?_, ?_⟩
    · rw [htools]; rfl
    · intro args; rw [htools]; rfl

/-- Claim C2, witness: at the constructed states themselves, the file
access agent cannot dispatch the execution tool and the execution agent
cannot dispatch the file access tool. -/
theorem c2_witness :
    (fileAccessAgentInit [] []).tools = [fileAccessTool [] []]
    ∧ dispatch (fileAccessAgentInit [] []).tools "execute_python_code" "x" =
        Except.error ToolError.unknownTool
    ∧ (pythonExecAgentInit isoBoom).tools = [execTool isoBoom]
    ∧ dispatch (pythonExecAgentInit isoBoom).tools "safe_file_access" "x" =
        Except.error ToolError.unknownTool := by
  have h := c2_separation_of_privilege [] [] isoBoom
    (fileAccessAgentInit [] []) (pythonExecAgentInit isoBoom)
  have h1 := h.1 Reachable.refl
  have h2 := h.2 Reachable.refl
  exact ⟨h1.1, h1.2.2 "x", h2.1, h2.2.2 "x"⟩

/-- Claim C3: when the isolate run of the execution tool fails, the
failure is returned as the textual result of the tool, never as an
exception: the run of the tool is the rendered outcome wrapped in ok, it
is never an error value, and inside the task loop the rendered failure is
appended as a tool turn and the loop continues with the model in the same
task. -/
theorem c3_exec_failure_surfaced :
    ∀ (iso : IsolateRunner) (src : String),
      (iso src).isFailure = true →
      ((execTool iso).run src = Except.ok (renderOutcome (iso src))
       ∧ (∀ e : ToolError, (execTool iso).run src ≠ Except.error e)
       ∧ ∀ (backend : Backend) (fuel : Nat) (msgs : List Message) (mgr : ToolManager),
          findTool mgr "execute_python_code" = some (execTool iso) →
          backend msgs (toolDefs mgr) = BackendResponse.toolCall "execute_python_code" src →
          taskLoop backend mgr (fuel + 1) msgs =
            ⟨(taskLoop backend mgr fuel (msgs ++ [⟨Role.tool, renderOutcome (iso src)⟩])).result,
             (taskLoop backend mgr fuel (msgs ++ [⟨Role.tool, renderOutcome (iso src)⟩])).messages,
             msgs :: (taskLoop backend mgr fuel
               (msgs ++ [⟨Role.tool, renderOutcome (iso src)⟩])).backendInputs⟩) := by
  intro iso src _hfail
  refine ⟨rfl, ?_, ?_⟩
  · intro e h
    simp [execTool, execute_python_code] at h
  · intro backend fuel msgs mgr hfind hb
    simp only [taskLoop, hb, dispatch, hfind, execTool, execute_python_code]

/-- Claim C3, witness: on an isolate whose every run exits nonzero, the
tool returns the rendered failure as ok text and the task loop feeds it
back as a tool turn. -/
theorem c3_witness :
    (execTool isoBoom).run "x" = Except.ok (renderOutcome (isoBoom "x"))
    ∧ taskLoop backendCallExec [execTool isoBoom] 1 [] =
        ⟨(taskLoop backendCallExec [execTool isoBoom] 0
            ([] ++ [⟨Role.tool, renderOutcome (isoBoom "x")⟩])).result,
         (taskLoop backendCallExec [execTool isoBoom] 0
            ([] ++ [⟨Role.tool, renderOutcome (isoBoom "x")⟩])).messages,
         [] :: (taskLoop backendCallExec [execTool isoBoom] 0
            ([] ++ [⟨Role.tool, renderOutcome (isoBoom "x")⟩])).backendInputs⟩ := by
  have h := c3_exec_failure_surfaced isoBoom "x" (by decide)
  exact ⟨h.1, h.2.2 backendCallExec 0 [] [execTool isoBoom] rfl rfl⟩

/-- Claim C4: for every file path that does not resolve within the
allowed host root, the file access tool fails with AccessDeniedError and
performs no transfer: the isolate filesystem it returns is exactly the
one it was given. -/
theorem c4_access_denied_no_transfer :
    ∀ (hostFS : HostFS) (isoFS : IsoFS) (filename : String),
      resolvesWithin allowedRootSegs filename = false →
      fileAccessRun hostFS isoFS filename = (Except.error ToolError.accessDenied, isoFS) := by
  intro hostFS isoFS filename h
  simp [fileAccessRun, h]

/-- Claim C4, witness: a path-escape attempt is denied and the isolate
filesystem is unchanged, even though the file exists on the host. -/
theorem c4_witness :
    resolvesWithin allowedRootSegs "./resources/data/../../etc/passwd" = false
    ∧ fileAccessRun [("./resources/data/../../etc/passwd", "secret")]
        [("/home/sandboxuser/data.csv", "x")] "./resources/data/../../etc/passwd" =
        (Except.error ToolError.accessDenied, [("/home/sandboxuser/data.csv", "x")]) :=
  ⟨by decide, c4_access_denied_no_transfer _ _ _ (by decide)⟩

/-- Claim C5: conversation history accumulates. Two sequential task calls
on the same agent only ever append to the message log: the log before is
a prefix of the log after each call, the message count strictly grows
across each call, and every message sequence handed to the model backend
during the second call extends the full log produced by the first. -/
theorem c5_history_accumulates :
    ∀ (b1 b2 : Backend) (f1 f2 : Nat) (s : AgentState) (in1 in2 : String),
      s.messages <+: (task b1 f1 s in1).state.messages
      ∧ s.messages.length < (task b1 f1 s in1).state.messages.length
      ∧ (task b1 f1 s in1).state.messages <+:
          (task b2 f2 (task b1 f1 s in1).state in2).state.messages
      ∧ (task b1 f1 s in1).state.messages.length <
          (task b2 f2 (task b1 f1 s in1).state in2).state.messages.length
      ∧ ∀ c ∈ (task b2 f2 (task b1 f1 s in1).state in2).backendInputs,
          (task b1 f1 s in1).state.messages <+: c := by
  intro b1 b2 f1 f2 s in1 in2
  obtain ⟨hp1, hl1⟩ := task_messages_grow b1 f1 s in1
  obtain ⟨hp2, hl2⟩ := task_messages_grow b2 f2 (task b1 f1 s in1).state in2
  exact ⟨hp1, hl1, hp2, hl2,
    fun c hc => task_inputs_extend b2 f2 (task b1 f1 s in1).state in2 c hc⟩

/-- Claim C5, witness: on a backend that answers immediately, the second
task call strictly grows the log and its (single) backend invocation
extends the log left by the first call. -/
theorem c5_witness :
    (task backendDone 1 emptyAgent "q").state.messages.length <
      (task backendDone 1 (task backendDone 1 emptyAgent "q").state "q2").state.messages.length
    ∧ (task backendDone 1 emptyAgent "q").state.messages <+:
        ((task backendDone 1 emptyAgent "q").state.messages ++
          [⟨Role.user, mergedUserContent (task backendDone 1 emptyAgent "q").state "q2"⟩]) := by
  have h := c5_history_accumulates backendDone backendDone 1 1 emptyAgent "q" "q2"
  refine ⟨h.2.2.2.1, h.2.2.2.2 _ ?_⟩
  simp [task, taskLoop, backendDone]

/-- Claim C7: dispatch fails with UnknownToolError exactly when no tool is
registered under the name, provided the registered tools themselves never
produce that error (true of both tools of this system); for a registered
name it delegates to the run of the found tool, propagating its failures
unchanged. -/
theorem c7_dispatch_unknown_iff :
    ∀ (m : ToolManager) (name args : String),
      (∀ t, t ∈ m → ∀ a, t.run a ≠ Except.error ToolError.unknownTool) →
      ((dispatch m name args = Except.error ToolError.unknownTool ↔ findTool m name = none)
       ∧ ∀ t, findTool m name = some t → dispatch m name args = t.run args) := by
  intro m name args hno
  cases hf : findTool m name with
  | none =>
    refine ⟨?_, ?_⟩
    · simp [dispatch, hf]
    · intro t ht
      cases ht
  | some t =>
    have htm : t ∈ m := List.mem_of_find?_eq_some hf
    refine ⟨?_, ?_⟩
    · simp only [dispatch, hf]
      constructor
      · intro h
        exact absurd h (hno t htm args)
      · intro h
        cases h
    · intro t2 ht2
      cases ht2
      simp [dispatch, hf]

/-- Claim C7, witness: on a manager holding only the execution tool, an
unregistered name is exactly the condition for UnknownToolError, and the
registered name delegates to the run of the tool. -/
theorem c7_witness :
    (dispatch [execTool isoBoom] "no_such_tool" "x" = Except.error ToolError.unknownTool
      ↔ findTool [execTool isoBoom] "no_such_tool" = none)
    ∧ dispatch [execTool isoBoom] "execute_python_code" "y" = (execTool isoBoom).run "y" := by
  have hno : ∀ t, t ∈ ([execTool isoBoom] : ToolManager) →
      ∀ a, t.run a ≠ Except.error ToolError.unknownTool := by
    intro t ht a
    simp only [List.mem_singleton] at ht
    subst ht
    simp [execTool]
  exact ⟨(c7_dispatch_unknown_iff [execTool isoBoom] "no_such_tool" "x" hno).1,
         (c7_dispatch_unknown_iff [execTool isoBoom] "execute_python_code" "y" hno).2
           (execTool isoBoom) rfl⟩

/-- Claim C8: add_context appends the text to the context buffer and
changes nothing else — the message log, the tool manager and the developer
prompt are untouched; the buffered context is consumed at the next task
call, which clears the buffer and whose first backend invocation carries
the buffered texts prepended into the merged user turn. -/
theorem c8_add_context_frame :
    ∀ (s : AgentState) (t : String),
      (addContext s t).messages = s.messages
      ∧ (addContext s t).tools = s.tools
      ∧ (addContext s t).developerPrompt = s.developerPrompt
      ∧ (addContext s t).contextBuffer = s.contextBuffer ++ [t]
      ∧ ∀ (backend : Backend) (fuel : Nat) (input : String),
          (task backend (fuel + 1) (addContext s t) input).state.contextBuffer = []
          ∧ (task backend (fuel + 1) (addContext s t) input).backendInputs.head? =
              some (s.messages ++
                [⟨Role.user,
                  String.intercalate "\n" (s.contextBuffer ++ [t] ++ [s.developerPrompt, input])⟩]) := by
  intro s t
  refine ⟨rfl, rfl, rfl, rfl, ?_⟩
  intro backend fuel input
  refine ⟨rfl, ?_⟩
  have h := taskLoop_first_input backend (addContext s t).tools fuel
    ((addContext s t).messages ++ [⟨Role.user, mergedUserContent (addContext s t) input⟩])
  simpa [task, mergedUserContent, addContext, List.append_assoc] using h

/-- Claim C9: describe is pure and side-effect-free. For both concrete
tools its value is the fixed static definition, independent of the
mutable world the tool closes over (the host and isolate filesystems for
the file access tool, the isolate runner for the execution tool), so any
two calls on the same tool yield identical values. -/
theorem c9_describe_pure :
    ∀ (h1 h2 : HostFS) (i1 i2 : IsoFS) (iso1 iso2 : IsolateRunner) (t : Tool),
      describe (fileAccessTool h1 i1) = fileAccessDefn
      ∧ describe (execTool iso1) = execDefn
      ∧ describe (fileAccessTool h1 i1) = describe (fileAccessTool h2 i2)
      ∧ describe (execTool iso1) = describe (execTool iso2)
      ∧ describe t = describe t := by
  intro h1 h2 i1 i2 iso1 iso2 t
  exact ⟨rfl, rfl, rfl, rfl, rfl⟩

/-- Claim C10: in the orchestration loop of the notebook, an iteration
terminates the application exactly when the input is the string exit,
compared exactly and before any agent call (the exit iteration performs
no task call at all); every other iteration calls the data analysis agent
exactly once on the input, prints its result, and does not exit; and the
file ingestion agent is never called inside the loop. -/
theorem c10_orchestration_loop :
    ∀ (taskFn : String → String) (q : String) (rest inputs : List String),
      (q = "exit" →
        orchestrationLoop taskFn (q :: rest) = [LoopAction.promptShown, LoopAction.exited]
        ∧ ∀ p, LoopAction.dataAnalysisTask p ∉ orchestrationLoop taskFn (q :: rest))
      ∧ (q ≠ "exit" →
        orchestrationLoop taskFn (q :: rest) =
          iterationActions taskFn q ++ orchestrationLoop taskFn rest
        ∧ (iterationActions taskFn q).countP isTaskCall = 1
        ∧ LoopAction.dataAnalysisTask q ∈ iterationActions taskFn q
        ∧ LoopAction.outputPrinted (taskFn q) ∈ iterationActions taskFn q
        ∧ LoopAction.exited ∉ iterationActions taskFn q)
      ∧ ∀ p, LoopAction.fileIngestionTask p ∉ orchestrationLoop taskFn inputs := by
  intro taskFn q rest inputs
  refine ⟨?_, ?_, orchestrationLoop_no_file_task taskFn inputs⟩
  · intro hq
    subst hq
    constructor
    · simp [orchestrationLoop]
    · intro p
      simp [orchestrationLoop]
  · intro hq
    have hqb : (q == "exit") = false := beq_eq_false_iff_ne.mpr hq
    refine ⟨?_, ?_, ?_, ?_, ?_⟩
    · simp [orchestrationLoop, hqb]
    · simp [iterationActions, List.countP_cons, isTaskCall]
    · simp [iterationActions]
    · simp [iterationActions]
    · simp [iterationActions]

/-- Claim C10, witness: the input exit produces the exit trace, and a
non-exit input produces an iteration with exactly one data analysis task
call. -/
theorem c10_witness :
    orchestrationLoop (fun s => s) ["exit"] = [LoopAction.promptShown, LoopAction.exited]
    ∧ (iterationActions (fun s => s) "ask").countP isTaskCall = 1 := by
  have h := c10_orchestration_loop (fun s => s) "exit" [] []
  have h2 := c10_orchestration_loop (fun s => s) "ask" [] []
  exact ⟨(h.1 rfl).1, (h2.2.1 (by decide)).2.1⟩
